import Mathlib

/-!
Verification of the Jordan Air Quality Monitoring dashboard (`src/app.py`).

This file gives a shallow embedding of the pure logic of the app: the
pollutant configuration registry (`gas_configs`), the date-window
construction (`start_date` / `end_date`), the per-city statistical report
generation loop, the export filename construction, and the
scientific-insight prefix lookup.  Remote Earth-Engine calls
(`reduceRegion`) are abstracted as an arbitrary function from the request
parameters the code passes to an optional rational value; the
temporal-mean semantics of the remote service (not part of the
repository) is modelled from the spec where a claim needs it.
-/

namespace JordanAQ

/-- The four pollutant names offered by the sidebar selector
(`st.sidebar.selectbox` in `app.py`). -/
def pollutantOptions : List String :=
  ["Nitrogen Dioxide (NO2)",
   "Sulfur Dioxide (SO2)",
   "Carbon Monoxide (CO)",
   "Aerosol Index (Dust/Smoke)"]

/-- One entry of the `gas_configs` dictionary in `app.py`: dataset id,
band name, display min/max, palette and unit. -/
structure GasConfig where
  collection : String
  band : String
  min : ℚ
  max : ℚ
  palette : List String
  unit : String
deriving DecidableEq

/-- The `gas_configs["Nitrogen Dioxide (NO2)"]` entry of `app.py`. -/
def cfg_no2 : GasConfig :=
  { collection := "COPERNICUS/S5P/OFFL/L3_NO2"
    band := "tropospheric_NO2_column_number_density"
    min := 0
    max := 0.0002
    palette := ["black", "blue", "purple", "cyan", "green", "yellow", "red"]
    unit := "mol/m²" }

/-- The `gas_configs["Sulfur Dioxide (SO2)"]` entry of `app.py`. -/
def cfg_so2 : GasConfig :=
  { collection := "COPERNICUS/S5P/OFFL/L3_SO2"
    band := "SO2_column_number_density"
    min := 0
    max := 0.0005
    palette := ["blue", "green", "yellow", "orange", "red"]
    unit := "mol/m²" }

/-- The `gas_configs["Carbon Monoxide (CO)"]` entry of `app.py`. -/
def cfg_co : GasConfig :=
  { collection := "COPERNICUS/S5P/OFFL/L3_CO"
    band := "CO_column_number_density"
    min := 0
    max := 0.05
    palette := ["black", "blue", "purple", "cyan", "green", "yellow", "red"]
    unit := "mol/m²" }

/-- The `gas_configs["Aerosol Index (Dust/Smoke)"]` entry of `app.py`. -/
def cfg_aer : GasConfig :=
  { collection := "COPERNICUS/S5P/OFFL/L3_AER_AI"
    band := "absorbing_aerosol_index"
    min := -1
    max := 2
    palette := ["black", "blue", "purple", "cyan", "green", "yellow", "red"]
    unit := "Index" }

/-- The `gas_configs` dictionary lookup of `app.py`
(`config = gas_configs[pollutant]`): a Python dict indexing raises
`KeyError` on a missing key, modelled as `none`. -/
def gas_configs (pollutant : String) : Option GasConfig :=
  if pollutant = "Nitrogen Dioxide (NO2)" then some cfg_no2
  else if pollutant = "Sulfur Dioxide (SO2)" then some cfg_so2
  else if pollutant = "Carbon Monoxide (CO)" then some cfg_co
  else if pollutant = "Aerosol Index (Dust/Smoke)" then some cfg_aer
  else none

/-- Python's `f"{n:02d}"` for a nonnegative `n`: decimal digits,
left-padded with `0` to width 2. -/
def pad2 (n : ℕ) : String :=
  if n < 10 then "0" ++ toString n else toString n

/-- The `start_date = f"{year}-{month:02d}-01"` string of `app.py`. -/
def start_date (year month : ℕ) : String :=
  toString year ++ "-" ++ pad2 month ++ "-01"

/-- The `end_date` string of `app.py`: first day of the following month,
rolling December into January of `year + 1`. -/
def end_date (year month : ℕ) : String :=
  if month < 12 then toString year ++ "-" ++ pad2 (month + 1) ++ "-01"
  else toString (year + 1) ++ "-01-01"

/-- The `f"{year}-{month:02d}"` date label used in each report row. -/
def dateLabel (year month : ℕ) : String :=
  toString year ++ "-" ++ pad2 month

/-- The fixed `locations` dictionary of the report loop in `app.py`:
city name and `[lat, lon]` point coordinates, in insertion order (a
Python dict iterates in insertion order). -/
def locations : List (String × ℚ × ℚ) :=
  [("Irbid", 32.55, 35.85),
   ("Amman", 31.95, 35.92),
   ("Zarqa", 32.06, 36.10),
   ("Aqaba", 29.53, 35.00),
   ("Mafraq", 32.34, 36.24)]

/-- The reducer passed to `image.reduceRegion` (`ee.Reducer.mean()`). -/
inductive ReducerKind where
  | mean
deriving DecidableEq

/-- The argument bundle of one `image.reduceRegion(...)` call in the
report loop of `app.py`. -/
structure ReduceRequest where
  reducer : ReducerKind
  geometry : ℚ × ℚ
  scale : ℕ
  maxPixels : ℕ
deriving DecidableEq

/-- The `reduceRegion` request the report loop issues for one city:
mean reducer over the city's point geometry, `scale=7000`,
`maxPixels=1e9`. -/
def cityRequest (coords : ℚ × ℚ) : ReduceRequest :=
  { reducer := ReducerKind.mean
    geometry := coords
    scale := 7000
    maxPixels := 1000000000 }

/-- One row of the statistical report (`results.append({...})` in
`app.py`).  `Value` is `val.get(config["band"])`, which is `None` when
the reduction dictionary has no value for the band, modelled as
`Option`. -/
structure Row where
  City : String
  Pollutant : String
  Value : Option ℚ
  Unit : String
  Date : String
deriving DecidableEq

/-- The report-generation loop of `app.py`: starting from `results = []`,
for each city (in the fixed `locations` order) issue one `reduceRegion`
call and append one row.  The remote service's response is abstracted as
`remote : ReduceRequest → String → Option ℚ` — the returned dictionary,
read at the band key via `val.get(config["band"])`. -/
def generate (pollutant : String) (cfg : GasConfig) (year month : ℕ)
    (remote : ReduceRequest → String → Option ℚ) : List Row :=
  locations.foldl
    (fun results cc =>
      let val := remote (cityRequest cc.2)
      results ++ [{ City := cc.1
                    Pollutant := pollutant
                    Value := val cfg.band
                    Unit := cfg.unit
                    Date := dateLabel year month }])
    []

/-- Characters before the first space of a character list. -/
def firstTokenAux : List Char → List Char
  | [] => []
  | c :: cs => if c = ' ' then [] else c :: firstTokenAux cs

/-- Python's `pollutant.split(" ")[0]` (`safe_name` in `app.py`): the
characters of the pollutant's display name before its first space (the
whole string when it has no space; `""` for the empty string, since
`"".split(" ")` is `[""]`). -/
def safe_name (pollutant : String) : String :=
  ⟨firstTokenAux pollutant.data⟩

/-- The export filename
`f"Jordan_AirQuality_{safe_name}_{year}_{month}.csv"` of `app.py`
(month unpadded). -/
def file_name (pollutant : String) (year month : ℕ) : String :=
  "Jordan_AirQuality_" ++ safe_name pollutant ++ "_" ++ toString year
    ++ "_" ++ toString month ++ ".csv"

/-- The prefix categories of the scientific-insight `if`/`elif` chain in
`app.py`, in the order they are tested. -/
def insightPrefixes : List String :=
  ["Nitrogen", "Sulfur", "Carbon", "Aerosol"]

/-- Python's `s.startswith(pre)`: `pre`'s characters are a prefix of
`s`'s characters. -/
def startswith (s pre : String) : Bool :=
  pre.data.isPrefixOf s.data

/-- The scientific-insight panel of `app.py`: an `if`/`elif` chain on
`pollutant.startswith(...)` selecting a fixed text; no `else` branch, so
an unmatched name produces nothing (`none`). -/
def insight (pollutant : String) : Option String :=
  if startswith pollutant "Nitrogen" then
    some "🚗 **NO₂** mainly originates from traffic and fossil fuel combustion."
  else if startswith pollutant "Sulfur" then
    some "🏭 **SO₂** indicates industrial emissions and power generation."
  else if startswith pollutant "Carbon" then
    some "🔥 **CO** is linked to incomplete combustion in urban areas."
  else if startswith pollutant "Aerosol" then
    some "🏜️ **Aerosol Index** highlights dust storms and smoke transport."
  else none

/-- Modelled from the spec: the remote data service's rasters are not in
this repository; a raster is modelled by what a spatial-mean reduction
of it returns at a point geometry for a band key. -/
def Image : Type := (ℚ × ℚ) → String → Option ℚ

/-- Modelled from the spec: the remote service's date filter restricts an
image collection (dated images) to acquisition dates in
`[startDate, endDate)`. -/
def filterDate (coll : List (String × Image)) (s e : String) :
    List (String × Image) :=
  coll.filter (fun p => s ≤ p.1 ∧ p.1 < e)

/-- Modelled from the spec: the temporal mean composite averages all
source images in the window; with zero images the result is an
empty/undefined raster whose reductions return null, not an error. -/
def meanImage (imgs : List Image) : Image :=
  fun coords band =>
    let vals := (imgs.map (fun i => i coords band)).filterMap id
    if vals.isEmpty then none
    else some (vals.sum / (vals.length : ℚ))

/-- Modelled from the spec: a `reduceRegion` request against a raster
evaluates the raster's spatial-mean reduction at the request's point
geometry. -/
def remoteOfImage (img : Image) : ReduceRequest → String → Option ℚ :=
  fun req band => img req.geometry band

/-- String comparison `s < t` is by definition lexicographic comparison
of the underlying character lists, which (unlike `String.ltb`) the kernel
can evaluate on concrete strings. -/
theorem string_lt_of_data {s t : String} (h : s.data < t.data) : s < t :=
  String.lt_iff_toList_lt.mpr h

/-- C1: for every year in the selector's bounded range `[2019, 2025]`
and month in `[1, 12]`, `start_date` is the `"YYYY-MM-01"` string with
two-digit zero-padded month, `end_date` is the first day of the
chronologically-next month (rolling December into January of
`year + 1`), and `start_date < end_date`. -/
theorem c1_date_window (y m : ℕ) (hy1 : 2019 ≤ y) (hy2 : y ≤ 2025)
    (hm1 : 1 ≤ m) (hm2 : m ≤ 12) :
    start_date y m = toString y ++ "-" ++ pad2 m ++ "-01" ∧
    (pad2 m).length = 2 ∧
    (m < 12 → end_date y m = toString y ++ "-" ++ pad2 (m + 1) ++ "-01") ∧
    (m = 12 → end_date y m = toString (y + 1) ++ "-01-01") ∧
    start_date y m < end_date y m := by
  have key : ∀ y' < 7, ∀ m' < 12,
      (pad2 (1 + m')).length = 2 ∧
      (start_date (2019 + y') (1 + m')).data
        < (end_date (2019 + y') (1 + m')).data := by decide
  obtain ⟨k1, k2⟩ := key (y - 2019) (by omega) (m - 1) (by omega)
  have ey : 2019 + (y - 2019) = y := by omega
  have em : 1 + (m - 1) = m := by omega
  rw [em] at k1
  rw [ey, em] at k2
  refine ⟨rfl, k1, ?_, ?_, string_lt_of_data k2⟩
  · intro h
    simp [end_date, h]
  · intro h
    subst h
    simp [end_date]

/-- Witness for C1 at the December-rollover input (2024, 12). -/
theorem c1_date_window_witness :
    end_date 2024 12 = "2025-01-01" ∧ start_date 2024 12 < end_date 2024 12 := by
  have h := c1_date_window 2024 12 (by norm_num) (by norm_num) (by norm_num) (by norm_num)
  exact ⟨(h.2.2.2.1 rfl).trans (by decide), h.2.2.2.2⟩

/-- C2: the registry lookup returns exactly the documented dataset id,
band, display min/max, palette and unit for each of the four pollutant
names, and fails (Python `KeyError`, modelled as `none`) on every other
input string. -/
theorem c2_registry_lookup :
    gas_configs "Nitrogen Dioxide (NO2)" = some
      { collection := "COPERNICUS/S5P/OFFL/L3_NO2"
        band := "tropospheric_NO2_column_number_density"
        min := 0, max := 0.0002
        palette := ["black", "blue", "purple", "cyan", "green", "yellow", "red"]
        unit := "mol/m²" } ∧
    gas_configs "Sulfur Dioxide (SO2)" = some
      { collection := "COPERNICUS/S5P/OFFL/L3_SO2"
        band := "SO2_column_number_density"
        min := 0, max := 0.0005
        palette := ["blue", "green", "yellow", "orange", "red"]
        unit := "mol/m²" } ∧
    gas_configs "Carbon Monoxide (CO)" = some
      { collection := "COPERNICUS/S5P/OFFL/L3_CO"
        band := "CO_column_number_density"
        min := 0, max := 0.05
        palette := ["black", "blue", "purple", "cyan", "green", "yellow", "red"]
        unit := "mol/m²" } ∧
    gas_configs "Aerosol Index (Dust/Smoke)" = some
      { collection := "COPERNICUS/S5P/OFFL/L3_AER_AI"
        band := "absorbing_aerosol_index"
        min := -1, max := 2
        palette := ["black", "blue", "purple", "cyan", "green", "yellow", "red"]
        unit := "Index" } ∧
    ∀ s, s ∉ pollutantOptions → gas_configs s = none := by
  refine ⟨rfl, rfl, rfl, rfl, ?_⟩
  intro s hs
  simp only [pollutantOptions, List.mem_cons, List.not_mem_nil, or_false,
    not_or] at hs
  obtain ⟨h1, h2, h3, h4⟩ := hs
  simp [gas_configs, h1, h2, h3, h4]

/-- Witness for C2: the lookup fails on a string outside the four
supported names. -/
theorem c2_registry_lookup_witness : gas_configs "Ozone (O3)" = none :=
  c2_registry_lookup.2.2.2.2 "Ozone (O3)" (by decide)

/-- C3: every generated report — whatever the pollutant, config, year,
month and whatever the remote reductions return — has exactly 5 rows,
one per configured city, in the fixed order Irbid, Amman, Zarqa, Aqaba,
Mafraq. -/
theorem c3_report_shape (p : String) (cfg : GasConfig) (y m : ℕ)
    (remote : ReduceRequest → String → Option ℚ) :
    (generate p cfg y m remote).length = 5 ∧
    (generate p cfg y m remote).map Row.City
      = ["Irbid", "Amman", "Zarqa", "Aqaba", "Mafraq"] :=
  ⟨rfl, rfl⟩

/-- C5: the end-to-end scenario pollutant = "Nitrogen Dioxide (NO2)",
year = 2024, month = 6: the selected config is the NO2 profile,
`start_date` is "2024-06-01", `end_date` is "2024-07-01", the report has
5 rows each with unit "mol/m²" and date "2024-06", and the export
filename is "Jordan_AirQuality_Nitrogen_2024_6.csv". -/
theorem c5_scenario (remote : ReduceRequest → String → Option ℚ) :
    gas_configs "Nitrogen Dioxide (NO2)" = some cfg_no2 ∧
    start_date 2024 6 = "2024-06-01" ∧
    end_date 2024 6 = "2024-07-01" ∧
    (generate "Nitrogen Dioxide (NO2)" cfg_no2 2024 6 remote).length = 5 ∧
    (generate "Nitrogen Dioxide (NO2)" cfg_no2 2024 6 remote).map
        (fun r => (r.Unit, r.Date)) = List.replicate 5 ("mol/m²", "2024-06") ∧
    file_name "Nitrogen Dioxide (NO2)" 2024 6
      = "Jordan_AirQuality_Nitrogen_2024_6.csv" := by
  have hd : dateLabel 2024 6 = "2024-06" := by decide
  refine ⟨rfl, by decide, by decide, rfl, ?_, by decide⟩
  simp [generate, locations, cfg_no2, hd]

/-- C8: every profile the registry can return satisfies
`min ≤ max` and has a non-empty palette. -/
theorem c8_profile_invariants (p : String) (cfg : GasConfig)
    (h : gas_configs p = some cfg) :
    cfg.min ≤ cfg.max ∧ cfg.palette ≠ [] := by
  unfold gas_configs at h
  split_ifs at h
  · cases h; exact ⟨by norm_num [cfg_no2], by simp [cfg_no2]⟩
  · cases h; exact ⟨by norm_num [cfg_so2], by simp [cfg_so2]⟩
  · cases h; exact ⟨by norm_num [cfg_co], by simp [cfg_co]⟩
  · cases h; exact ⟨by norm_num [cfg_aer], by simp [cfg_aer]⟩

/-- Witness for C8 at the NO2 profile. -/
theorem c8_profile_invariants_witness :
    cfg_no2.min ≤ cfg_no2.max ∧ cfg_no2.palette ≠ [] :=
  c8_profile_invariants "Nitrogen Dioxide (NO2)" cfg_no2 rfl

/-- The report loop, though written as a fold appending one row at a
time, builds exactly one row per city of the fixed list, each from the
single `reduceRegion` call for that city. -/
theorem generate_eq_map (p : String) (cfg : GasConfig) (y m : ℕ)
    (remote : ReduceRequest → String → Option ℚ) :
    generate p cfg y m remote = locations.map (fun cc =>
      { City := cc.1
        Pollutant := p
        Value := remote (cityRequest cc.2) cfg.band
        Unit := cfg.unit
        Date := dateLabel y m }) := rfl

/-- C4: a city whose reduction yields no value still gets its row, with
an explicitly missing `Value`; and when the date window matches zero
source images (so the report is generated against the mean of an empty
collection), every one of the five rows has a missing `Value`. -/
theorem c4_missing_values (p : String) (cfg : GasConfig) (y m : ℕ)
    (remote : ReduceRequest → String → Option ℚ)
    (coll : List (String × Image)) (s e : String) :
    (∀ cc ∈ locations, remote (cityRequest cc.2) cfg.band = none →
      ∃ r ∈ generate p cfg y m remote, r.City = cc.1 ∧ r.Value = none) ∧
    (filterDate coll s e = [] →
      (generate p cfg y m
          (remoteOfImage (meanImage ((filterDate coll s e).map Prod.snd)))).map
            Row.Value
        = List.replicate 5 none) := by
  constructor
  · intro cc hcc hnone
    rw [generate_eq_map]
    exact ⟨_, List.mem_map_of_mem _ hcc, rfl, hnone⟩
  · intro h
    rw [h]
    rfl

/-- Witness for C4: generating against the mean of an empty collection
yields five rows whose values are all missing. -/
theorem c4_missing_values_witness :
    (generate "Nitrogen Dioxide (NO2)" cfg_no2 2024 6
        (remoteOfImage (meanImage
          ((filterDate [] "2024-06-01" "2024-07-01").map Prod.snd)))).map Row.Value
      = List.replicate 5 none :=
  (c4_missing_values "Nitrogen Dioxide (NO2)" cfg_no2 2024 6 (fun _ _ => none)
      [] "2024-06-01" "2024-07-01").2 rfl

/-- C6: every row of a generated report carries the currently selected
pollutant name and its registry unit, and — the generation starting from
a fresh `results = []` — no row of a previously generated report for a
different pollutant can appear in it. -/
theorem c6_report_purity (p : String) (cfg : GasConfig) (y m : ℕ)
    (remote : ReduceRequest → String → Option ℚ) (prev : List Row) :
    (∀ r ∈ generate p cfg y m remote, r.Pollutant = p ∧ r.Unit = cfg.unit) ∧
    (∀ r ∈ prev, r.Pollutant ≠ p → r ∉ generate p cfg y m remote) := by
  have hall : ∀ r ∈ generate p cfg y m remote,
      r.Pollutant = p ∧ r.Unit = cfg.unit := by
    rw [generate_eq_map]
    intro r hr
    obtain ⟨_cc, _, rfl⟩ := List.mem_map.mp hr
    exact ⟨rfl, rfl⟩
  exact ⟨hall, fun r _ hne hmem => hne (hall r hmem).1⟩

/-- Witness for C6: a stale SO2 row cannot appear in a fresh NO2
report. -/
theorem c6_report_purity_witness :
    ({ City := "Amman", Pollutant := "Sulfur Dioxide (SO2)", Value := none,
       Unit := "mol/m²", Date := "2024-05" } : Row)
      ∉ generate "Nitrogen Dioxide (NO2)" cfg_no2 2024 6 (fun _ _ => none) :=
  (c6_report_purity "Nitrogen Dioxide (NO2)" cfg_no2 2024 6 (fun _ _ => none)
      [{ City := "Amman", Pollutant := "Sulfur Dioxide (SO2)", Value := none,
         Unit := "mol/m²", Date := "2024-05" }]).2
    _ (by simp) (by decide)

/-- C7: the report is exactly one independent spatial-mean reduction per
city of the fixed list, and every issued request uses the mean reducer
over that city's point geometry with fixed `scale = 7000` m (7 km) and
`maxPixels = 1e9`. -/
theorem c7_city_reductions (p : String) (cfg : GasConfig) (y m : ℕ)
    (remote : ReduceRequest → String → Option ℚ) :
    generate p cfg y m remote = locations.map (fun cc =>
      { City := cc.1
        Pollutant := p
        Value := remote (cityRequest cc.2) cfg.band
        Unit := cfg.unit
        Date := dateLabel y m }) ∧
    ∀ cc ∈ locations,
      (cityRequest cc.2).reducer = ReducerKind.mean ∧
      (cityRequest cc.2).geometry = cc.2 ∧
      (cityRequest cc.2).scale = 7000 ∧
      (cityRequest cc.2).maxPixels = 1000000000 :=
  ⟨generate_eq_map p cfg y m remote, fun _cc _ => ⟨rfl, rfl, rfl, rfl⟩⟩

/-- Witness for C7 at the Amman entry of the city list. -/
theorem c7_city_reductions_witness :
    (cityRequest ("Amman", (31.95 : ℚ), (35.92 : ℚ)).2).reducer = ReducerKind.mean ∧
    (cityRequest ("Amman", (31.95 : ℚ), (35.92 : ℚ)).2).scale = 7000 ∧
    (cityRequest ("Amman", (31.95 : ℚ), (35.92 : ℚ)).2).maxPixels = 1000000000 := by
  have h := (c7_city_reductions "Nitrogen Dioxide (NO2)" cfg_no2 2024 6
      (fun _ _ => none)).2 ("Amman", 31.95, 35.92) (by simp [locations])
  exact ⟨h.1, h.2.2.1, h.2.2.2⟩

/-- C9: the insight panel is a pure static lookup producing the fixed
text for each of the four registry pollutant names, each name matching
exactly one of the prefix categories, so the no-match branch is
unreachable for registry inputs. -/
theorem c9_insight_total :
    insight "Nitrogen Dioxide (NO2)"
      = some "🚗 **NO₂** mainly originates from traffic and fossil fuel combustion." ∧
    insight "Sulfur Dioxide (SO2)"
      = some "🏭 **SO₂** indicates industrial emissions and power generation." ∧
    insight "Carbon Monoxide (CO)"
      = some "🔥 **CO** is linked to incomplete combustion in urban areas." ∧
    insight "Aerosol Index (Dust/Smoke)"
      = some "🏜️ **Aerosol Index** highlights dust storms and smoke transport." ∧
    ∀ p ∈ pollutantOptions,
      insightPrefixes.countP (fun pre => startswith p pre) = 1 ∧
      insight p ≠ none :=
  ⟨by decide, by decide, by decide, by decide, by decide⟩

/-- Witness for C9: some explanatory text is produced for the aerosol
option. -/
theorem c9_insight_total_witness : insight "Aerosol Index (Dust/Smoke)" ≠ none :=
  (c9_insight_total.2.2.2.2 "Aerosol Index (Dust/Smoke)" (by decide)).2

/-- Two strings differing at some character position differ. -/
theorem string_ne_of_getElem {s t : String} {i : ℕ}
    (h : s.data[i]? ≠ t.data[i]?) : s ≠ t :=
  fun he => h (by rw [he])

/-- The four supported pollutant names have short names with pairwise
distinct first characters. -/
theorem heads_distinct : ∀ p1 ∈ pollutantOptions, ∀ p2 ∈ pollutantOptions,
    p1 ≠ p2 → (safe_name p1).data[0]? ≠ (safe_name p2).data[0]? := by decide

/-- The four supported pollutant names have non-empty short names. -/
theorem head_some : ∀ p ∈ pollutantOptions, ((safe_name p).data[0]?).isSome := by
  decide

/-- Character 18 of an export filename — the position right after the
`"Jordan_AirQuality_"` prefix — is the first character of the
pollutant's short name. -/
theorem file_name_getElem_eighteen (p : String) (y m : ℕ) {c : Char}
    (hc : (safe_name p).data[0]? = some c) :
    (file_name p y m).data[18]? = some c := by
  have hpos : 0 < (safe_name p).data.length := by
    cases hl : (safe_name p).data with
    | nil => rw [hl] at hc; simp at hc
    | cons a l => simp [hl]
  show (("Jordan_AirQuality_" ++ safe_name p ++ "_" ++ toString y ++ "_"
      ++ toString m ++ ".csv").data)[18]? = some c
  simp only [String.data_append, List.append_assoc]
  rw [List.getElem?_append_right (by decide : ("Jordan_AirQuality_").data.length ≤ 18)]
  have h18 : (18 : ℕ) - ("Jordan_AirQuality_").data.length = 0 := by decide
  rw [h18, List.getElem?_append_left hpos]
  exact hc

/-- C10: any two distinct supported pollutant names have distinct
short names (the first space-delimited token), so for any fixed
(year, month) their export filenames never collide. -/
theorem c10_filename_distinct (p1 p2 : String) (h1 : p1 ∈ pollutantOptions)
    (h2 : p2 ∈ pollutantOptions) (hne : p1 ≠ p2) (y m : ℕ) :
    safe_name p1 ≠ safe_name p2 ∧ file_name p1 y m ≠ file_name p2 y m := by
  have hd := heads_distinct p1 h1 p2 h2 hne
  obtain ⟨c1, hc1⟩ := Option.isSome_iff_exists.mp (head_some p1 h1)
  obtain ⟨c2, hc2⟩ := Option.isSome_iff_exists.mp (head_some p2 h2)
  constructor
  · exact fun he => hd (by rw [he])
  · apply string_ne_of_getElem (i := 18)
    rw [file_name_getElem_eighteen p1 y m hc1,
      file_name_getElem_eighteen p2 y m hc2]
    rw [hc1, hc2] at hd
    exact hd

/-- Witness for C10 at the NO2/SO2 pair with year 2024, month 6. -/
theorem c10_filename_distinct_witness :
    safe_name "Nitrogen Dioxide (NO2)" ≠ safe_name "Sulfur Dioxide (SO2)" ∧
    file_name "Nitrogen Dioxide (NO2)" 2024 6
      ≠ file_name "Sulfur Dioxide (SO2)" 2024 6 :=
  c10_filename_distinct "Nitrogen Dioxide (NO2)" "Sulfur Dioxide (SO2)"
    (by decide) (by decide) (by decide) 2024 6

end JordanAQ
